import Mathlib

/-!
Shallow embedding of `src/client/src/util/factory.js` from the
build-your-own-radar client, together with models (from the spec) of the
small helper modules the factory requires but whose sources are not part
of the tree (`contentValidator`, `inputSanitizer`, `queryParamProcessor`,
the domain-model classes `Radar`/`Quadrant`/`Ring`/`Blip`, and the remote
collaborators `Sheet`/`Tabletop`/`GoogleAuth`).

JavaScript exceptions are modelled with `Except PipelineError`; a
JavaScript value that may be `undefined` is modelled with `Option`.
-/

namespace Byor

/-! ### JavaScript string helpers (character-level, kernel-friendly) -/

/-- ASCII-level model of `String.prototype.toLowerCase`. -/
def jsToLower (s : String) : String :=
  String.mk (s.toList.map Char.toLower)

/-- Model of lodash `_.capitalize`: first character upper-cased, the rest
lower-cased. -/
def jsCapitalize (s : String) : String :=
  match s.toList with
  | [] => ""
  | c :: cs => String.mk (c.toUpper :: cs.map Char.toLower)

/-- `s.endsWith(suffix)` at the character level. -/
def jsEndsWith (s suffix : String) : Bool :=
  suffix.toList.isSuffixOf s.toList

/-- `s.substring(0, s.length - n)`: drop the last `n` characters. -/
def jsDropRight (s : String) (n : Nat) : String :=
  String.mk (s.toList.take (s.toList.length - n))

/-- Whitespace as `String.prototype.trim` treats it (ASCII subset). -/
def isJsSpace (c : Char) : Bool :=
  c == ' ' || c == '\t' || c == '\n' || c == '\r'

/-- Character-level model of `String.prototype.trim`: strip leading and
trailing whitespace. -/
def jsTrim (s : String) : String :=
  String.mk (((s.toList.dropWhile isJsSpace).reverse.dropWhile isJsSpace).reverse)

/-- JavaScript string truthiness: the empty string is falsy. -/
def jsTruthyStr (s : String) : Bool := s ≠ ""

/-- Truthiness of a possibly-`undefined` string. -/
def jsTruthyOptStr : Option String → Bool
  | none => false
  | some s => jsTruthyStr s

/-! ### Error taxonomy

`PipelineError` models the JavaScript exceptions that can flow through the
factory: the repository's `MalformedDataError` and `SheetNotFoundError`
classes, a native `TypeError` (property access on `undefined`), and an
HTTP error response object carrying a `status` field (the shape tested by
`error.status === 403` in `authenticate`). -/

inductive PipelineError where
  | malformedData (msg : String)
  | sheetNotFound (msg : String)
  | typeError (msg : String)
  | httpError (status : Nat)
  deriving DecidableEq, Repr

/-- Modelled from the spec: the `ExceptionMessages.TOO_MANY_RINGS` constant
(src/client/src/util/exceptionMessages.js is not in the source tree); the
ring-count invariant message. -/
def TOO_MANY_RINGS : String := "More than 4 rings."

/-- Modelled from the spec: the `ExceptionMessages` constant used by the
content validator when the content is empty. -/
def MISSING_CONTENT : String := "Missing content."

/-- Modelled from the spec: the `ExceptionMessages` constant used by the
content validator when a required header is absent. -/
def MISSING_HEADERS : String := "Missing headers."

/-! ### Domain model

Modelled from the spec: the classes `Ring`, `Quadrant`, `Blip`, `Radar`
(src/client/src/models/*.js are not in the source tree).  A `Ring` is a
name with an order index; a `Blip` holds a reference to its ring; a
`Quadrant` is a capitalized display name with an ordered blip list; a
`Radar` owns quadrants in insertion order plus the alternative sheet
names and the current sheet name. -/

structure Ring where
  name : String
  order : Nat
  deriving DecidableEq, Repr

structure Blip where
  name : String
  ring : Option Ring
  isNew : Bool
  topic : String
  description : String
  deriving DecidableEq, Repr

structure Quadrant where
  name : String
  blips : List Blip
  deriving DecidableEq, Repr

structure Radar where
  quadrants : List Quadrant
  alternatives : List String
  currentSheet : Option String
  deriving DecidableEq, Repr

/-- The pair `(title, radar)` that `plotRadar` hands to the rendering
collaborator (`new GraphingRadar(size, radar).init().plot()` with the
computed `title` set on the document). -/
structure PlotResult where
  title : String
  radar : Radar
  deriving DecidableEq, Repr

/-- All blips owned by a radar, in quadrant insertion order. -/
def radarBlips (r : Radar) : List Blip :=
  (r.quadrants.map (·.blips)).foldr (· ++ ·) []

/-- The total blip count of a radar across all quadrants. -/
def radarBlipCount (r : Radar) : Nat :=
  (r.quadrants.map (·.blips.length)).sum

/-- The rings referenced by a radar's blips. -/
def radarRings (r : Radar) : List Ring :=
  (radarBlips r).filterMap (·.ring)

/-! ### plotRadar (factory.js lines 28-72) -/

/-- `NormalizedBlip` as consumed by `plotRadar`: the sanitized row with
string fields (the `isNew` field is still the raw string; `plotRadar`
itself performs `blip.isNew.toLowerCase() === 'true'`). -/
structure RawBlip where
  name : String
  ring : String
  quadrant : String
  isNew : String
  topic : String
  description : String
  deriving DecidableEq, Repr

/-- lodash `_.map(_.uniqBy(blips, 'ring'), 'ring')`: the distinct values in
first-occurrence order. -/
def uniqFirstAux : List String → List String → List String
  | [], _ => []
  | x :: xs, seen =>
    if x ∈ seen then uniqFirstAux xs seen
    else x :: uniqFirstAux xs (x :: seen)

def uniqFirst (l : List String) : List String := uniqFirstAux l []

/-- The `_.each(rings, ...)` loop of `plotRadar`: build `ringMap`, throwing
`MalformedDataError(TOO_MANY_RINGS)` when the index reaches `maxRings = 4`. -/
def buildRingsAux : List String → Nat → Except PipelineError (List (String × Ring))
  | [], _ => .ok []
  | r :: rs, i =>
    if i == 4 then .error (.malformedData TOO_MANY_RINGS)
    else
      match buildRingsAux rs (i + 1) with
      | .error e => .error e
      | .ok rest => .ok ((r, ⟨r, i⟩) :: rest)

def buildRings (rings : List String) : Except PipelineError (List (String × Ring)) :=
  buildRingsAux rings 0

/-- Association-list lookup, modelling a JavaScript object used as a map
(string keys, insertion order preserved). -/
def alistLookup {α : Type} (l : List (String × α)) (k : String) : Option α :=
  match l with
  | [] => none
  | (k', v) :: rest => if k' == k then some v else alistLookup rest k

/-- The `new Blip(blip.name, ringMap[blip.ring], blip.isNew.toLowerCase()
=== 'true', blip.topic, blip.description)` expression of `plotRadar`
(factory.js line 51): the ring reference is looked up under the raw
`blip.ring` string, and `isNew` is normalized by lower-casing the raw
value and strict-comparing it to the literal `"true"`. -/
def mkBlipObj (ringMap : List (String × Ring)) (b : RawBlip) : Blip :=
  { name := b.name
    ring := alistLookup ringMap b.ring
    isNew := jsToLower b.isNew == "true"
    topic := b.topic
    description := b.description }

/-- Update of the JavaScript object `quadrants` under `key`: append the
blip to the first (and only) entry carrying `key`, or append a fresh
quadrant with display name `disp` at the end when the key is absent
(string-keyed objects preserve insertion order). -/
def quadInsert : List (String × Quadrant) → String → String → Blip → List (String × Quadrant)
  | [], key, disp, blip => [(key, ⟨disp, [blip]⟩)]
  | (k, q) :: rest, key, disp, blip =>
    if k == key then (k, ⟨q.name, q.blips ++ [blip]⟩) :: rest
    else (k, q) :: quadInsert rest key disp blip

/-- One step of the `_.each(blips, ...)` loop of `plotRadar` (factory.js
lines 47-52): create the quadrant lazily under the raw `blip.quadrant` key
with capitalized display name, then `add` the new `Blip`. -/
def quadStep (ringMap : List (String × Ring)) (qs : List (String × Quadrant))
    (b : RawBlip) : List (String × Quadrant) :=
  quadInsert qs b.quadrant (jsCapitalize b.quadrant) (mkBlipObj ringMap b)

/-- The tautological guard `alternativeRadars !== undefined || true`
(factory.js line 59), exactly as written. -/
def altGuard (alternativeRadars : Option (List String)) : Bool :=
  alternativeRadars.isSome || true

/-- The tautological guard `currentRadarName !== undefined || true`
(factory.js line 65), exactly as written. -/
def currGuard (currentRadarName : Option String) : Bool :=
  currentRadarName.isSome || true

/-- `plotRadar(title, blips, currentRadarName, alternativeRadars)`
(factory.js lines 28-72).  Strips a trailing `.csv` from the title, builds
the ring map (throwing on a fifth distinct ring before any quadrant, blip
or radar is created), folds the blips into quadrants, assembles the radar,
runs the two guarded assignments (`alternativeRadars.forEach` throws a
`TypeError` when the argument is `undefined`), and hands `(title, radar)`
to the rendering collaborator. -/
def plotRadar (title : String) (blips : List RawBlip) (currentRadarName : Option String)
    (alternativeRadars : Option (List String)) : Except PipelineError PlotResult :=
  let title := if jsEndsWith title ".csv" then jsDropRight title 4 else title
  let rings := uniqFirst (blips.map (·.ring))
  match buildRings rings with
  | .error e => .error e
  | .ok ringMap =>
    let quadrants := blips.foldl (quadStep ringMap) []
    let radar0 : Radar := { quadrants := quadrants.map (·.2), alternatives := [], currentSheet := none }
    if altGuard alternativeRadars then
      match alternativeRadars with
      | none => .error (.typeError "Cannot read properties of undefined (reading forEach)")
      | some alts =>
        let radar1 := { radar0 with alternatives := alts }
        let radar2 := if currGuard currentRadarName
          then { radar1 with currentSheet := currentRadarName } else radar1
        .ok { title := title, radar := radar2 }
    else
      let radar2 := if currGuard currentRadarName
        then { radar0 with currentSheet := currentRadarName } else radar0
      .ok { title := title, radar := radar2 }

/-! ### ContentValidator and InputSanitizer (models) -/

/-- The required field names checked by the content validator. -/
def requiredHeaders : List String :=
  ["name", "ring", "quadrant", "isNew", "description"]

/-- Modelled from the spec: `ContentValidator`
(src/client/src/util/contentValidator.js is not in the source tree).  It is
constructed from the column names; `verifyContent` fails with
`MalformedDataError` when that content is empty, and `verifyHeaders` fails
with `MalformedDataError` unless the header set is a superset of the
required field names (name, ring, quadrant, isNew, description).  This
function runs `verifyContent()` then `verifyHeaders()` as every caller in
factory.js does. -/
def contentValidatorCheck (columnNames : List String) : Except PipelineError Unit :=
  if columnNames.length == 0 then .error (.malformedData MISSING_CONTENT)
  else if requiredHeaders.all (fun h => columnNames.contains h) then .ok ()
  else .error (.malformedData MISSING_HEADERS)

/-- A raw named-column row: an ordered mapping from column label to raw
string cell value. -/
def RawRow : Type := List (String × String)

/-- Field access on a named row; a missing column reads as the empty
string. -/
def rowField (row : RawRow) (field : String) : String :=
  (alistLookup row field).getD ""

/-- Modelled from the spec: `InputSanitizer().sanitize`
(src/client/src/util/inputSanitizer.js is not in the source tree).  Maps a
raw named-column row to the normalized record, trimming whitespace on
every field; a missing optional column yields a blank string, not a
failure.  The `isNew` value stays a string here: `plotRadar` itself
performs the lower-case comparison against `"true"`. -/
def sanitize (row : RawRow) : RawBlip :=
  { name := jsTrim (rowField row "name")
    ring := jsTrim (rowField row "ring")
    quadrant := jsTrim (rowField row "quadrant")
    isNew := jsTrim (rowField row "isNew")
    topic := jsTrim (rowField row "topic")
    description := jsTrim (rowField row "description") }

/-- Positional index of a field name in the header row. -/
def headerIndex (header : List String) (field : String) : Option Nat :=
  header.findIdx? (fun h => h == field)

/-- Modelled from the spec: `InputSanitizer().sanitizeForProtectedSheet`
(src/client/src/util/inputSanitizer.js is not in the source tree).
Re-pairs the positional value sequence to labels using the supplied header
sequence by positional index, then applies the same normalization rules as
`sanitize`. -/
def sanitizeForProtectedSheet (row header : List String) : RawBlip :=
  sanitize (header.zip row)

/-! ### The three ingestion callbacks

Each callback is embedded as a function into `Except PipelineError Display`:
a `.error` result is an exception escaping the callback uncaught, while a
`.ok` result is the display state it leaves the page in. -/

/-- The display states a pipeline entry point can leave the page in:
a plotted radar handed to the rendering collaborator, the error banner of
`plotErrorMessage`, or the unauthorized banner of
`plotUnauthorizedErrorMessage`. -/
inductive Display where
  | radar (res : PlotResult)
  | errorBanner (message : String)
  | unauthorized
  deriving DecidableEq, Repr

/-- The base message of `plotErrorMessage` (factory.js line 326). -/
def OOPS_MESSAGE : String := "Oops! We can't find the Google Sheet you've entered"

/-- `plotErrorMessage(exception)` (factory.js lines 310-352): the message is
the base text with the exception's message appended for a
`MalformedDataError`, the exception's message alone for a
`SheetNotFoundError`, and the base text (with the exception only logged)
otherwise. -/
def plotErrorMessage : PipelineError → Display
  | .malformedData m => .errorBanner (OOPS_MESSAGE ++ m)
  | .sheetNotFound m => .errorBanner m
  | _ => .errorBanner OOPS_MESSAGE

/-- One tab of an anonymously read spreadsheet as Tabletop delivers it:
column names plus the rows keyed by header name. -/
structure TabletopSheet where
  columnNames : List String
  rows : List RawRow

/-- The Tabletop response: the spreadsheet name, the discovered tab names,
and the tabs by name. -/
structure TabletopData where
  googleSheetName : String
  foundSheetNames : List String
  sheets : List (String × TabletopSheet)

/-- `if (!sheetName) { sheetName = sheetNames[0] }`: default a falsy sheet
name to the first discovered tab (which is `undefined` when there is
none). -/
def defaultSheetName (sheetName : Option String) (sheetNames : List String) : Option String :=
  if jsTruthyOptStr sheetName then sheetName else sheetNames.head?

/-- String coercion of a possibly-`undefined` value, as JavaScript's `+`
performs it. -/
def jsShowOpt : Option String → String
  | none => "undefined"
  | some s => s

/-- The body of the `try` block of `createBlips` (factory.js lines 97-110):
default the sheet name to the first discovered tab, read that tab's column
names (property access on a missing tab throws a `TypeError`), validate
content and headers, sanitize every row, and call `plotRadar`. -/
def createBlipsInner (tabletop : TabletopData) (sheetName : Option String) :
    Except PipelineError PlotResult :=
  let sn : Option String := defaultSheetName sheetName tabletop.foundSheetNames
  match sn with
  | none => .error (.typeError "Cannot read properties of undefined (reading columnNames)")
  | some name =>
    match alistLookup tabletop.sheets name with
    | none => .error (.typeError "Cannot read properties of undefined (reading columnNames)")
    | some tab =>
      match contentValidatorCheck tab.columnNames with
      | .error e => .error e
      | .ok _ =>
        let blips := tab.rows.map sanitize
        plotRadar (tabletop.googleSheetName ++ " - " ++ name) blips (some name)
          (some tabletop.foundSheetNames)

/-- `createBlips` (factory.js lines 96-114), the public-sheet ingestion
callback: the whole body runs inside `try { ... } catch (exception) {
plotErrorMessage(exception) }`, so no exception escapes. -/
def createBlips (tabletop : TabletopData) (sheetName : Option String) :
    Except PipelineError Display :=
  .ok (match createBlipsInner tabletop sheetName with
    | .ok r => .radar r
    | .error e => plotErrorMessage e)

/-- The `values.forEach` loop of `createBlipsForProtectedSheet`
(factory.js lines 121-125): for every row, a validator is constructed on
`values[0]` and both checks are run; the first failure escapes the loop. -/
def validateEach (head : List String) : List (List String) → Except PipelineError Unit
  | [] => .ok ()
  | _ :: rest =>
    match contentValidatorCheck head with
    | .error e => .error e
    | .ok _ => validateEach head rest

/-- `createBlipsForProtectedSheet(documentTitle, values, sheetNames)`
(factory.js lines 117-131): default the sheet name to the first entry of
`sheetNames`, validate `values[0]` once per row, `shift` the header row
off, sanitize every remaining row positionally against the header, and
call `plotRadar`.  There is no `try`/`catch`: any exception escapes as a
`.error`. -/
def createBlipsForProtectedSheet (documentTitle : String) (values : List (List String))
    (sheetNames : List String) (sheetName : Option String) :
    Except PipelineError Display :=
  let sn : Option String := defaultSheetName sheetName sheetNames
  match validateEach (values.headD []) values with
  | .error e => .error e
  | .ok _ =>
    let header := values.headD []
    let all := values.tail
    let blips := all.map (fun blip => sanitizeForProtectedSheet blip header)
    match plotRadar (documentTitle ++ " - " ++ jsShowOpt sn) blips sn (some sheetNames) with
    | .error e => .error e
    | .ok r => .ok (.radar r)

/-- A fetched CSV document as `d3.csv` delivers it: the `columns` property
plus the rows keyed by header name. -/
structure CsvData where
  columns : List String
  rows : List RawRow

/-! ### URL helpers (factory.js lines 186-200) -/

/-- Value of an ASCII hex digit. -/
def hexVal (c : Char) : Option Nat :=
  if '0' ≤ c ∧ c ≤ '9' then some (c.toNat - '0'.toNat)
  else if 'a' ≤ c ∧ c ≤ 'f' then some (c.toNat - 'a'.toNat + 10)
  else if 'A' ≤ c ∧ c ≤ 'F' then some (c.toNat - 'A'.toNat + 10)
  else none

/-- ASCII-level model of the `decodeURIComponent` builtin: a `%` followed
by two hex digits decodes to that character; anything else passes through. -/
def percentDecode : List Char → List Char
  | '%' :: a :: b :: rest =>
    match hexVal a, hexVal b with
    | some x, some y => Char.ofNat (16 * x + y) :: percentDecode rest
    | _, _ => '%' :: percentDecode (a :: b :: rest)
  | c :: rest => c :: percentDecode rest
  | [] => []

/-- `decodeURIComponent(url.replace(/\+/g, ' '))` as both `DomainName` and
`FileName` begin. -/
def jsDecode (url : String) : List Char :=
  percentDecode (url.toList.map (fun c => if c == '+' then ' ' else c))

/-- Left-to-right scan implementing `/.+:\/\/([^\\/]+)/.exec`: the greedy
`.+` makes the winning match the rightmost `://` that is preceded by at
least one character and followed by at least one character that is neither
`/` nor `\`; the capture is the maximal such run after it. -/
def domainScanAux : Nat → List Char → Option (List Char) → Option (List Char)
  | _, [], acc => acc
  | pre, c :: rest, acc =>
    let acc' :=
      if pre ≥ 1 ∧ c = ':' then
        match rest with
        | '/' :: '/' :: tail =>
          let dom := tail.takeWhile (fun d => !(d == '/' || d == '\\'))
          if dom.isEmpty then acc else some dom
        | _ => acc
      else acc
    domainScanAux (pre + 1) rest acc'

/-- `DomainName(url)` (factory.js lines 186-190): decode, run the regex,
return the captured domain token or `null`. -/
def DomainName (url : String) : Option String :=
  (domainScanAux 0 (jsDecode url) none).map String.mk

/-- `FileName(url)` (factory.js lines 192-200): the regex `([^\\/]+)$`
captures the maximal trailing run of non-separator characters of the
decoded url; when it is empty the match fails and the original url is
returned. -/
def FileName (url : String) : String :=
  let tail := ((jsDecode url).reverse.takeWhile (fun c => !(c == '/' || c == '\\'))).reverse
  if tail.isEmpty then url else String.mk tail

/-! ### CSVDocument (factory.js lines 157-184) -/

/-- The body of the `try` block of the CSV `createBlips` (factory.js lines
166-172): read `data.columns`, validate, sanitize every row, and plot with
the file name as title, `'CSV File'` as current radar name and `[]` as
alternatives. -/
def csvCreateBlipsInner (url : String) (data : CsvData) :
    Except PipelineError PlotResult :=
  match contentValidatorCheck data.columns with
  | .error e => .error e
  | .ok _ =>
    let blips := data.rows.map sanitize
    plotRadar (FileName url) blips (some "CSV File") (some [])

/-- `CSVDocument(url)`'s `createBlips` (factory.js lines 164-176), the CSV
ingestion callback: the whole body runs inside `try { ... } catch
(exception) { plotErrorMessage(exception) }`, so no exception escapes. -/
def csvCreateBlips (url : String) (data : CsvData) : Except PipelineError Display :=
  .ok (match csvCreateBlipsInner url data with
    | .ok r => .radar r
    | .error e => plotErrorMessage e)

/-! ### QueryParams and GoogleSheetInput.build (factory.js lines 202-238) -/

/-- Split a character list on a separator character. -/
def splitOnChar (sep : Char) : List Char → List (List Char)
  | [] => [[]]
  | c :: rest =>
    let r := splitOnChar sep rest
    if c == sep then [] :: r
    else
      match r with
      | [] => [[c]]
      | p :: ps => (c :: p) :: ps

/-- Split a `key=value` chunk at its first `=`; a chunk without `=` has no
value (the parameter reads as `undefined`). -/
def splitKV (cs : List Char) : Option (String × String) :=
  match splitOnChar '=' cs with
  | [] => none
  | [_] => none
  | k :: v :: rest => some (String.mk k, String.intercalate "=" (String.mk v :: rest.map String.mk))

/-- Modelled from the spec: `QueryParams`
(src/client/src/util/queryParamProcessor.js is not in the source tree).
Parses the query fragment into a mapping of `key=value` pairs split on
`&`; the spec names a `sheetId` parameter and an optional `sheetName`
parameter read from the page's location. -/
def QueryParams (s : String) : List (String × String) :=
  (splitOnChar '&' s.toList).filterMap splitKV

/-- Suffix of `hay` starting at the first occurrence of `needle`, if any:
the full match of `href.match(/sheetId(.*)/)[0]`. -/
def findSub (needle : List Char) : List Char → Option (List Char)
  | [] => if needle.isEmpty then some [] else none
  | c :: rest =>
    if needle.isPrefixOf (c :: rest) then some (c :: rest)
    else findSub needle rest

/-- The outcome of the Locator: the source kind chosen by
`GoogleSheetInput.build`. -/
inductive Source where
  | csv (url : String)
  | googleSheet (sheetId : String) (sheetName : Option String)
  | formPrompt
  deriving DecidableEq, Repr

/-- `window.location.href.match(/sheetId(.*)/)` followed by the
`queryString ? QueryParams(queryString[0]) : {}` step: the query
parameters the Locator works with. -/
def locatorParams (href : String) : List (String × String) :=
  match findSub "sheetId".toList href.toList with
  | some qs => QueryParams (String.mk qs)
  | none => []

/-- `GoogleSheetInput.build` (factory.js lines 206-235), the Locator:
extract a domain token from `window.location.search.substring(1)`, match
`sheetId(.*)` against `window.location.href` and parse the query
parameters; classify as CSV when a domain token exists and the `sheetId`
value ends with `csv` (property access on an `undefined` `sheetId` throws
a `TypeError`), else as a Google Sheet when the domain token ends with
`google.com` and the `sheetId` value is truthy, else show the entry form. -/
def googleSheetInputBuild (search href : String) : Except PipelineError Source :=
  let domainName := DomainName (String.mk (search.toList.drop 1))
  let queryParams := locatorParams href
  let sheetId := alistLookup queryParams "sheetId"
  match domainName with
  | none => .ok .formPrompt
  | some dn =>
    match sheetId with
    | none => .error (.typeError "Cannot read properties of undefined (reading endsWith)")
    | some sid =>
      if jsEndsWith sid "csv" then .ok (.csv sid)
      else if jsEndsWith dn "google.com" && jsTruthyStr sid then
        .ok (.googleSheet sid (alistLookup queryParams "sheetName"))
      else .ok .formPrompt

/-! ### GoogleSheet source resolution / authentication flow
(factory.js lines 74-155) -/

/-- The environment of one `GoogleSheet.build` run: what each external
collaborator answers.  `validateResult` is the error the anonymous
`sheet.validate` passes to its callback (`none` on success);
`tabletop` is the anonymous Tabletop read's payload; `protectedResult` is
what `sheet.processSheetResponse` delivers after login (`Sum.inl` the
`(documentTitle, values, sheetNames)` triple, `Sum.inr` an error response
with its HTTP status). -/
structure SheetEnv where
  validateResult : Option PipelineError
  tabletop : TabletopData
  protectedResult : Sum (String × List (List String) × List String) Nat

/-- The observable outcome of a `GoogleSheet.build` run: whether
authentication (the `GoogleAuth.login` call of `self.authenticate`) was
ever attempted, and the display state the flow terminates in (`none`
models an exception escaping a callback that has no catch-all). -/
structure FlowOutcome where
  loginAttempted : Bool
  display : Option Display
  deriving DecidableEq, Repr

/-- `GoogleSheet.build` together with `self.authenticate`
(factory.js lines 77-94 and 133-147): on a clean validate the anonymous
Tabletop read runs `createBlips`; a `SheetNotFoundError` from validate is
rendered by `plotErrorMessage` with no login attempted; any other validate
error enters `authenticate(false)`, whose protected read either hands the
triple to `createBlipsForProtectedSheet`, or renders the unauthorized
banner on a 403 status, or `plotErrorMessage` otherwise. -/
def googleSheetBuild (env : SheetEnv) (sheetName : Option String) : FlowOutcome :=
  match env.validateResult with
  | none =>
    { loginAttempted := false
      display := (createBlips env.tabletop sheetName).toOption }
  | some e =>
    match e with
    | .sheetNotFound m =>
      { loginAttempted := false, display := some (plotErrorMessage (.sheetNotFound m)) }
    | _ =>
      match env.protectedResult with
      | .inl (documentTitle, values, sheetNames) =>
        { loginAttempted := true
          display := (createBlipsForProtectedSheet documentTitle values sheetNames sheetName).toOption }
      | .inr status =>
        { loginAttempted := true
          display := some (if status == 403 then .unauthorized else plotErrorMessage (.httpError status)) }

/-! ## Lemmas -/

theorem mem_uniqFirstAux {x : String} (l : List String) :
    ∀ seen, x ∈ uniqFirstAux l seen ↔ x ∈ l ∧ x ∉ seen := by
  induction l with
  | nil => intro seen; simp [uniqFirstAux]
  | cons y ys ih =>
    intro seen
    by_cases hy : y ∈ seen
    · rw [uniqFirstAux, if_pos hy, ih seen]
      simp only [List.mem_cons]
      constructor
      · rintro ⟨hx, hs⟩
        exact ⟨Or.inr hx, hs⟩
      · rintro ⟨hx | hx, hs⟩
        · exact absurd (hx ▸ hy) hs
        · exact ⟨hx, hs⟩
    · rw [uniqFirstAux, if_neg hy]
      simp only [List.mem_cons, ih (y :: seen)]
      constructor
      · rintro (rfl | ⟨hx, hs⟩)
        · exact ⟨Or.inl rfl, hy⟩
        · exact ⟨Or.inr hx, fun hmem => hs (Or.inr hmem)⟩
      · rintro ⟨rfl | hx, hs⟩
        · exact Or.inl rfl
        · by_cases hxy : x = y
          · exact Or.inl hxy
          · exact Or.inr ⟨hx, by simp [hxy, hs]⟩

theorem nodup_uniqFirstAux (l : List String) :
    ∀ seen, (uniqFirstAux l seen).Nodup := by
  induction l with
  | nil => intro seen; simp [uniqFirstAux]
  | cons y ys ih =>
    intro seen
    by_cases hy : y ∈ seen
    · rw [uniqFirstAux, if_pos hy]; exact ih seen
    · rw [uniqFirstAux, if_neg hy]
      refine List.nodup_cons.mpr ⟨?_, ih (y :: seen)⟩
      rw [mem_uniqFirstAux]
      rintro ⟨-, hns⟩
      exact hns (List.mem_cons_self y seen)

theorem mem_uniqFirst {x : String} {l : List String} : x ∈ uniqFirst l ↔ x ∈ l := by
  rw [uniqFirst, mem_uniqFirstAux]
  simp

theorem nodup_uniqFirst (l : List String) : (uniqFirst l).Nodup :=
  nodup_uniqFirstAux l []

theorem toFinset_uniqFirst (l : List String) : (uniqFirst l).toFinset = l.toFinset := by
  ext x
  simp [List.mem_toFinset, mem_uniqFirst]

theorem length_uniqFirst (l : List String) :
    (uniqFirst l).length = l.toFinset.card := by
  rw [← List.toFinset_card_of_nodup (nodup_uniqFirst l), toFinset_uniqFirst]

/-- The ring map that the `_.each(rings, ...)` loop builds when it does not
throw: each ring name paired with a `Ring` carrying its position. -/
def ringMapSpec : List String → Nat → List (String × Ring)
  | [], _ => []
  | r :: rs, i => (r, ⟨r, i⟩) :: ringMapSpec rs (i + 1)

theorem buildRingsAux_ok (rs : List String) :
    ∀ i, rs.length + i ≤ 4 → buildRingsAux rs i = .ok (ringMapSpec rs i) := by
  induction rs with
  | nil => intro i _; rfl
  | cons r rs ih =>
    intro i hle
    have hi : i ≠ 4 := by simp only [List.length_cons] at hle; omega
    rw [buildRingsAux, if_neg (by simpa using hi)]
    rw [ih (i + 1) (by simp only [List.length_cons] at hle; omega)]
    rfl

theorem buildRingsAux_err (rs : List String) :
    ∀ i, i ≤ 4 → 5 ≤ rs.length + i →
      buildRingsAux rs i = .error (.malformedData TOO_MANY_RINGS) := by
  induction rs with
  | nil => intro i h1 h2; simp at h2; omega
  | cons r rs ih =>
    intro i h1 h2
    by_cases hi : i = 4
    · rw [buildRingsAux, if_pos (by simpa using hi)]
    · rw [buildRingsAux, if_neg (by simpa using hi)]
      rw [ih (i + 1) (by omega) (by simp only [List.length_cons] at h2; omega)]

theorem alistLookup_ringMapSpec (rs : List String) :
    ∀ i s, s ∈ rs →
      alistLookup (ringMapSpec rs i) s = some ⟨s, i + List.indexOf s rs⟩ := by
  induction rs with
  | nil => intro i s h; simp at h
  | cons r rs ih =>
    intro i s hmem
    by_cases hrs : r = s
    · subst hrs
      rw [ringMapSpec, alistLookup, if_pos (by simp)]
      simp [List.indexOf_cons_self]
    · rw [ringMapSpec, alistLookup, if_neg (by simp [hrs])]
      have hs : s ∈ rs := by
        rcases List.mem_cons.mp hmem with h | h
        · exact absurd h.symm hrs
        · exact h
      rw [ih (i + 1) s hs, List.indexOf_cons_ne rs hrs]
      simp only [Option.some.injEq, Ring.mk.injEq, true_and]
      omega

/-- The keys of the `quadrants` object. -/
def quadKeys (qs : List (String × Quadrant)) : List String := qs.map (·.1)

/-- The blips of the `quadrants` object, flattened in insertion order. -/
def quadFlat (qs : List (String × Quadrant)) : List Blip :=
  (qs.map (·.2.blips)).foldr (· ++ ·) []

theorem quadKeys_quadInsert (key disp : String) (blip : Blip) :
    ∀ qs, quadKeys (quadInsert qs key disp blip) =
      if key ∈ quadKeys qs then quadKeys qs else quadKeys qs ++ [key] := by
  intro qs
  induction qs with
  | nil => simp [quadKeys, quadInsert]
  | cons p rest ih =>
    obtain ⟨k, q⟩ := p
    by_cases hk : k = key
    · subst hk
      rw [quadInsert, if_pos (by simp)]
      simp [quadKeys]
    · rw [quadInsert, if_neg (by simp [hk])]
      simp only [quadKeys, List.map_cons] at ih ⊢
      rw [ih]
      by_cases hmem : key ∈ rest.map (·.1)
      · rw [if_pos hmem, if_pos (by simp [hmem])]
      · rw [if_neg hmem, if_neg (by simp [hmem, Ne.symm hk])]
        simp

theorem mem_quadKeys_quadInsert {x key disp : String} {blip : Blip}
    {qs : List (String × Quadrant)} :
    x ∈ quadKeys (quadInsert qs key disp blip) ↔ x ∈ quadKeys qs ∨ x = key := by
  rw [quadKeys_quadInsert]
  by_cases hmem : key ∈ quadKeys qs
  · rw [if_pos hmem]
    constructor
    · exact Or.inl
    · rintro (h | rfl)
      · exact h
      · exact hmem
  · rw [if_neg hmem]
    simp

theorem nodup_quadKeys_quadInsert {key disp : String} {blip : Blip}
    {qs : List (String × Quadrant)} (h : (quadKeys qs).Nodup) :
    (quadKeys (quadInsert qs key disp blip)).Nodup := by
  rw [quadKeys_quadInsert]
  by_cases hmem : key ∈ quadKeys qs
  · rwa [if_pos hmem]
  · rw [if_neg hmem]
    simp [List.nodup_append, h, hmem]

theorem quadFlat_quadInsert (key disp : String) (blip : Blip) :
    ∀ qs, List.Perm (quadFlat (quadInsert qs key disp blip)) (quadFlat qs ++ [blip]) := by
  intro qs
  induction qs with
  | nil => simp [quadFlat, quadInsert]
  | cons p rest ih =>
    obtain ⟨k, q⟩ := p
    by_cases hk : k = key
    · subst hk
      rw [quadInsert, if_pos (by simp)]
      simp only [quadFlat, List.map_cons, List.foldr_cons]
      rw [List.append_assoc, List.append_assoc]
      exact (@List.perm_append_comm _ [blip] _).append_left q.blips
    · rw [quadInsert, if_neg (by simp [hk])]
      simp only [quadFlat, List.map_cons, List.foldr_cons] at ih ⊢
      rw [List.append_assoc]
      exact ih.append_left q.blips

theorem quadLens_quadInsert (key disp : String) (blip : Blip) :
    ∀ qs, ((quadInsert qs key disp blip).map (·.2.blips.length)).sum =
      (qs.map (·.2.blips.length)).sum + 1 := by
  intro qs
  induction qs with
  | nil => simp [quadInsert]
  | cons p rest ih =>
    obtain ⟨k, q⟩ := p
    by_cases hk : k = key
    · subst hk
      rw [quadInsert, if_pos (by simp)]
      simp only [List.map_cons, List.sum_cons, List.length_append, List.length_cons,
        List.length_nil]
      omega
    · rw [quadInsert, if_neg (by simp [hk])]
      simp only [List.map_cons, List.sum_cons, ih]
      omega

theorem mem_quadKeys_foldl (rm : List (String × Ring)) {x : String} (blips : List RawBlip) :
    ∀ qs, x ∈ quadKeys (blips.foldl (quadStep rm) qs) ↔
      x ∈ quadKeys qs ∨ x ∈ blips.map (·.quadrant) := by
  induction blips with
  | nil => intro qs; simp
  | cons b bs ih =>
    intro qs
    rw [List.foldl_cons, ih (quadStep rm qs b)]
    simp only [quadStep, mem_quadKeys_quadInsert, List.map_cons, List.mem_cons]
    tauto

theorem nodup_quadKeys_foldl (rm : List (String × Ring)) (blips : List RawBlip) :
    ∀ qs, (quadKeys qs).Nodup → (quadKeys (blips.foldl (quadStep rm) qs)).Nodup := by
  induction blips with
  | nil => intro qs h; exact h
  | cons b bs ih =>
    intro qs h
    exact ih (quadStep rm qs b) (nodup_quadKeys_quadInsert h)

theorem quadLens_foldl (rm : List (String × Ring)) (blips : List RawBlip) :
    ∀ qs, ((blips.foldl (quadStep rm) qs).map (·.2.blips.length)).sum =
      (qs.map (·.2.blips.length)).sum + blips.length := by
  induction blips with
  | nil => intro qs; simp
  | cons b bs ih =>
    intro qs
    rw [List.foldl_cons, ih (quadStep rm qs b)]
    rw [quadStep, quadLens_quadInsert]
    simp only [List.length_cons]
    omega

theorem quadFlat_foldl (rm : List (String × Ring)) (blips : List RawBlip) :
    ∀ qs, List.Perm (quadFlat (blips.foldl (quadStep rm) qs))
      (quadFlat qs ++ blips.map (mkBlipObj rm)) := by
  induction blips with
  | nil => intro qs; simp
  | cons b bs ih =>
    intro qs
    rw [List.foldl_cons]
    refine (ih (quadStep rm qs b)).trans ?_
    have h1 : List.Perm (quadFlat (quadStep rm qs b)) (quadFlat qs ++ [mkBlipObj rm b]) :=
      quadFlat_quadInsert b.quadrant (jsCapitalize b.quadrant) (mkBlipObj rm b) qs
    refine (h1.append_right (bs.map (mkBlipObj rm))).trans ?_
    rw [List.append_assoc, List.map_cons]
    rfl

theorem quadFlat_foldl_nil (rm : List (String × Ring)) (blips : List RawBlip) :
    List.Perm (quadFlat (blips.foldl (quadStep rm) []))
      (blips.map (mkBlipObj rm)) := by
  have h := quadFlat_foldl rm blips []
  simpa [quadFlat] using h

/-- When the blips carry at most four distinct ring names, `plotRadar`
succeeds with the radar built by the quadrant fold over the ring map. -/
theorem plotRadar_ok_shape (title : String) (blips : List RawBlip)
    (currentRadarName : Option String) (alts : List String)
    (h : (blips.map (·.ring)).toFinset.card ≤ 4) :
    plotRadar title blips currentRadarName (some alts) =
      .ok { title := if jsEndsWith title ".csv" then jsDropRight title 4 else title
            radar :=
              { quadrants :=
                  ((blips.foldl (quadStep (ringMapSpec (uniqFirst (blips.map (·.ring))) 0)) []).map (·.2))
                alternatives := alts
                currentSheet := currentRadarName } } := by
  have hlen : (uniqFirst (blips.map (·.ring))).length + 0 ≤ 4 := by
    rw [length_uniqFirst]
    omega
  rw [plotRadar, buildRings, buildRingsAux_ok _ 0 hlen]
  simp [altGuard, currGuard]

theorem filterMap_congr_some {α β : Type} (f : α → Option β) (g : α → β) :
    ∀ l : List α, (∀ x ∈ l, f x = some (g x)) → l.filterMap f = l.map g := by
  intro l
  induction l with
  | nil => intro _; rfl
  | cons a l ih =>
    intro hall
    rw [List.filterMap_cons, hall a (List.mem_cons_self a l), List.map_cons,
      ih (fun x hx => hall x (List.mem_cons_of_mem a hx))]

theorem perm_toFinset {α : Type} [DecidableEq α] {l1 l2 : List α}
    (h : List.Perm l1 l2) : l1.toFinset = l2.toFinset := by
  ext x
  simp [List.mem_toFinset, h.mem_iff]

theorem toFinset_card_map_of_injective {α β : Type} [DecidableEq α] [DecidableEq β]
    (f : α → β) (hf : Function.Injective f) :
    ∀ l : List α, (l.map f).toFinset.card = l.toFinset.card := by
  intro l
  induction l with
  | nil => simp
  | cons a l ih =>
    simp only [List.map_cons, List.toFinset_cons]
    have hmem : f a ∈ (l.map f).toFinset ↔ a ∈ l.toFinset := by
      simp only [List.mem_toFinset, List.mem_map]
      constructor
      · rintro ⟨x, hx, hfx⟩
        exact hf hfx ▸ hx
      · intro ha
        exact ⟨a, ha, rfl⟩
    by_cases ha : a ∈ l.toFinset
    · rw [Finset.insert_eq_self.mpr (hmem.mpr ha), Finset.insert_eq_self.mpr ha, ih]
    · rw [Finset.card_insert_of_not_mem (fun hc => ha (hmem.mp hc)),
        Finset.card_insert_of_not_mem ha, ih]

/-! ## Claims -/

/-- **C4**: for every input blip sequence with at most 4 distinct ring
names, `plotRadar` produces a radar whose ring count equals the number of
distinct ring names in the input, whose quadrant count equals the number
of distinct quadrant values in the input, and whose total blip count
across all quadrants equals the number of input rows; each distinct ring
is assigned order index equal to its first-occurrence position. -/
theorem plotRadar_builds_model (title : String) (blips : List RawBlip)
    (currentRadarName : Option String) (alts : List String)
    (h : (blips.map (·.ring)).toFinset.card ≤ 4) :
    ∃ res, plotRadar title blips currentRadarName (some alts) = .ok res ∧
      res.radar.quadrants.length = (blips.map (·.quadrant)).toFinset.card ∧
      radarBlipCount res.radar = blips.length ∧
      (radarRings res.radar).toFinset.card = (blips.map (·.ring)).toFinset.card ∧
      ∀ rg ∈ radarRings res.radar,
        rg.order = List.indexOf rg.name (uniqFirst (blips.map (·.ring))) := by
  have hshape := plotRadar_ok_shape title blips currentRadarName alts h
  refine ⟨_, hshape, ?_, ?_, ?_, ?_⟩
  · -- quadrant count
    have hnd := nodup_quadKeys_foldl (ringMapSpec (uniqFirst (blips.map (·.ring))) 0)
      blips [] (by simp [quadKeys])
    have hset : (quadKeys (blips.foldl
        (quadStep (ringMapSpec (uniqFirst (blips.map (·.ring))) 0)) [])).toFinset =
        (blips.map (·.quadrant)).toFinset := by
      ext x
      rw [List.mem_toFinset, List.mem_toFinset,
        mem_quadKeys_foldl (ringMapSpec (uniqFirst (blips.map (·.ring))) 0) blips []]
      simp [quadKeys]
    calc ((blips.foldl (quadStep (ringMapSpec (uniqFirst (blips.map (·.ring))) 0)) []).map
            (·.2)).length
        = (quadKeys (blips.foldl
            (quadStep (ringMapSpec (uniqFirst (blips.map (·.ring))) 0)) [])).length := by
          simp [quadKeys]
      _ = (quadKeys (blips.foldl
            (quadStep (ringMapSpec (uniqFirst (blips.map (·.ring))) 0)) [])).toFinset.card :=
          (List.toFinset_card_of_nodup hnd).symm
      _ = (blips.map (·.quadrant)).toFinset.card := by rw [hset]
  · -- total blip count
    rw [radarBlipCount]
    simp only [List.map_map]
    have := quadLens_foldl (ringMapSpec (uniqFirst (blips.map (·.ring))) 0) blips []
    simpa [Function.comp] using this
  · -- ring count
    have hflat : radarBlips (⟨((blips.foldl
          (quadStep (ringMapSpec (uniqFirst (blips.map (·.ring))) 0)) []).map (·.2)),
        alts, currentRadarName⟩ : Radar) =
        quadFlat (blips.foldl
          (quadStep (ringMapSpec (uniqFirst (blips.map (·.ring))) 0)) []) := by
      simp only [radarBlips, quadFlat, List.map_map]
      rfl
    rw [radarRings, hflat]
    have hq := (quadFlat_foldl_nil (ringMapSpec (uniqFirst (blips.map (·.ring))) 0)
      blips).filterMap (·.ring)
    have heq : (blips.map (mkBlipObj
        (ringMapSpec (uniqFirst (blips.map (·.ring))) 0))).filterMap (·.ring) =
        blips.map (fun b =>
          (⟨b.ring, List.indexOf b.ring (uniqFirst (blips.map (·.ring)))⟩ : Ring)) := by
      rw [List.filterMap_map]
      refine filterMap_congr_some _ _ blips ?_
      intro b hb
      have hmem : b.ring ∈ uniqFirst (blips.map (·.ring)) :=
        mem_uniqFirst.mpr (List.mem_map_of_mem _ hb)
      simp [Function.comp, mkBlipObj, alistLookup_ringMapSpec _ 0 _ hmem]
    rw [heq] at hq
    rw [perm_toFinset hq]
    have hcomp : blips.map (fun b =>
        (⟨b.ring, List.indexOf b.ring (uniqFirst (blips.map (·.ring)))⟩ : Ring)) =
        (blips.map (·.ring)).map (fun s =>
          (⟨s, List.indexOf s (uniqFirst (blips.map (·.ring)))⟩ : Ring)) := by
      rw [List.map_map]
      rfl
    rw [hcomp]
    exact toFinset_card_map_of_injective _ (fun a b hab => congrArg Ring.name hab) _
  · -- ring order indices
    intro rg hrg
    have hflat : radarBlips (⟨((blips.foldl
          (quadStep (ringMapSpec (uniqFirst (blips.map (·.ring))) 0)) []).map (·.2)),
        alts, currentRadarName⟩ : Radar) =
        quadFlat (blips.foldl
          (quadStep (ringMapSpec (uniqFirst (blips.map (·.ring))) 0)) []) := by
      simp only [radarBlips, quadFlat, List.map_map]
      rfl
    rw [radarRings, hflat] at hrg
    have hq := (quadFlat_foldl_nil (ringMapSpec (uniqFirst (blips.map (·.ring))) 0)
      blips).filterMap (·.ring)
    rw [hq.mem_iff] at hrg
    rcases List.mem_filterMap.mp hrg with ⟨bl, hbl, hblr⟩
    rcases List.mem_map.mp hbl with ⟨b, hb, rfl⟩
    have hmem : b.ring ∈ uniqFirst (blips.map (·.ring)) :=
      mem_uniqFirst.mpr (List.mem_map_of_mem _ hb)
    rw [mkBlipObj] at hblr
    simp only [alistLookup_ringMapSpec _ 0 _ hmem, Nat.zero_add, Option.some.injEq] at hblr
    subst hblr
    rfl

/-- Witness for C4: two blips sharing one quadrant and carrying two
distinct ring names. -/
theorem plotRadar_builds_model_witness :
    (([⟨"a", "r1", "q", "true", "", ""⟩, ⟨"b", "r2", "q", "no", "", ""⟩] :
        List RawBlip).map (·.ring)).toFinset.card ≤ 4 ∧
    (∃ res, plotRadar "t"
        [⟨"a", "r1", "q", "true", "", ""⟩, ⟨"b", "r2", "q", "no", "", ""⟩] none (some ["s"]) =
        .ok res ∧
      res.radar.quadrants.length =
        (([⟨"a", "r1", "q", "true", "", ""⟩, ⟨"b", "r2", "q", "no", "", ""⟩] :
          List RawBlip).map (·.quadrant)).toFinset.card ∧
      radarBlipCount res.radar =
        ([⟨"a", "r1", "q", "true", "", ""⟩, ⟨"b", "r2", "q", "no", "", ""⟩] :
          List RawBlip).length ∧
      (radarRings res.radar).toFinset.card =
        (([⟨"a", "r1", "q", "true", "", ""⟩, ⟨"b", "r2", "q", "no", "", ""⟩] :
          List RawBlip).map (·.ring)).toFinset.card ∧
      ∀ rg ∈ radarRings res.radar,
        rg.order = List.indexOf rg.name (uniqFirst
          (([⟨"a", "r1", "q", "true", "", ""⟩, ⟨"b", "r2", "q", "no", "", ""⟩] :
            List RawBlip).map (·.ring)))) :=
  ⟨by decide, plotRadar_builds_model "t"
    [⟨"a", "r1", "q", "true", "", ""⟩, ⟨"b", "r2", "q", "no", "", ""⟩] none ["s"] (by decide)⟩

/-- **C1**: for every sequence of normalized blips containing 5 or more
distinct ring names, `plotRadar` fails with the ring-count
`MalformedDataError`; the failure is the value of the whole call (the
quadrant/blip fold and the radar construction are never reached), so no
partial radar is ever handed to the rendering collaborator. -/
theorem plotRadar_five_rings_fails (title : String) (blips : List RawBlip)
    (currentRadarName : Option String) (alternativeRadars : Option (List String))
    (h : 5 ≤ (blips.map (·.ring)).toFinset.card) :
    plotRadar title blips currentRadarName alternativeRadars =
      .error (.malformedData TOO_MANY_RINGS) := by
  have herr := buildRingsAux_err (uniqFirst (blips.map (·.ring))) 0 (by omega)
    (by rw [length_uniqFirst]; omega)
  simp [plotRadar, buildRings, herr]

/-- Witness for C1: five blips with five distinct ring names. -/
theorem plotRadar_five_rings_fails_witness :
    5 ≤ (([⟨"a", "r1", "q", "", "", ""⟩, ⟨"b", "r2", "q", "", "", ""⟩,
          ⟨"c", "r3", "q", "", "", ""⟩, ⟨"d", "r4", "q", "", "", ""⟩,
          ⟨"e", "r5", "q", "", "", ""⟩] : List RawBlip).map (·.ring)).toFinset.card ∧
    plotRadar "t"
      [⟨"a", "r1", "q", "", "", ""⟩, ⟨"b", "r2", "q", "", "", ""⟩,
       ⟨"c", "r3", "q", "", "", ""⟩, ⟨"d", "r4", "q", "", "", ""⟩,
       ⟨"e", "r5", "q", "", "", ""⟩] none none =
      .error (.malformedData TOO_MANY_RINGS) :=
  ⟨by decide, plotRadar_five_rings_fails "t"
    [⟨"a", "r1", "q", "", "", ""⟩, ⟨"b", "r2", "q", "", "", ""⟩,
     ⟨"c", "r3", "q", "", "", ""⟩, ⟨"d", "r4", "q", "", "", ""⟩,
     ⟨"e", "r5", "q", "", "", ""⟩] none none (by decide)⟩

/-- **C7**: `plotRadar` normalizes the `isNew` field of each blip it
builds (the `Blip` construction embedded as `mkBlipObj`) by lower-casing
the raw value and strict-comparing it to the literal `"true"`: the result
is `true` exactly when the lower-cased value is `"true"` (so for the
inputs `"True"`, `"TRUE"` and `"true"`), and `false` for every other
value, including `"yes"` and the empty string. -/
theorem isNew_normalization (rm : List (String × Ring)) (b : RawBlip) :
    ((mkBlipObj rm b).isNew = (jsToLower b.isNew == "true"))
    ∧ ((mkBlipObj rm b).isNew = true ↔ jsToLower b.isNew = "true")
    ∧ (mkBlipObj rm { b with isNew := "True" }).isNew = true
    ∧ (mkBlipObj rm { b with isNew := "TRUE" }).isNew = true
    ∧ (mkBlipObj rm { b with isNew := "true" }).isNew = true
    ∧ (mkBlipObj rm { b with isNew := "yes" }).isNew = false
    ∧ (mkBlipObj rm { b with isNew := "" }).isNew = false := by
  refine ⟨rfl, ?_, ?_, ?_, ?_, ?_, ?_⟩
  · rw [mkBlipObj]
    exact beq_iff_eq
  · show (jsToLower "True" == "true") = true
    decide
  · show (jsToLower "TRUE" == "true") = true
    decide
  · show (jsToLower "true" == "true") = true
    decide
  · show (jsToLower "yes" == "true") = false
    decide
  · show (jsToLower "" == "true") = false
    decide

/-- Counterexample to **C8** as stated: the quadrant grouping key is not
the lower-form of the quadrant name.  `"tools"` and `"TOOLS"` have the
same lower-form, so under the claim they would share one quadrant, yet
`plotRadar` groups them into two distinct quadrants (the raw as-seen
string is the key). -/
theorem quadrant_lower_key_cex :
    jsToLower "tools" = jsToLower "TOOLS" ∧
    ∃ res, plotRadar "t" [⟨"a", "r", "tools", "", "", ""⟩, ⟨"b", "r", "TOOLS", "", "", ""⟩]
        none (some []) = .ok res ∧ res.radar.quadrants.length = 2 :=
  ⟨by decide,
   ⟨"t", ⟨[⟨"Tools", [⟨"a", some ⟨"r", 0⟩, false, "", ""⟩]⟩,
           ⟨"Tools", [⟨"b", some ⟨"r", 0⟩, false, "", ""⟩]⟩], [], none⟩⟩,
   by rfl, rfl⟩

/-- **C8** (amended): quadrant and ring identity during domain building
are both name-based and exact on the raw as-seen string: two blips land in
the same quadrant exactly when their raw quadrant strings are equal (the
quadrant's display name being the capitalized form of the name), and they
reference the same ring exactly when their raw ring strings are equal,
with ring orders following first occurrence. -/
theorem identity_case_rules (b1 b2 : RawBlip) :
    ∃ res, plotRadar "t" [b1, b2] none (some []) = .ok res ∧
      res.radar.quadrants.length = (if b1.quadrant = b2.quadrant then 1 else 2) ∧
      res.radar.quadrants.map (·.name) =
        (if b1.quadrant = b2.quadrant then [jsCapitalize b1.quadrant]
         else [jsCapitalize b1.quadrant, jsCapitalize b2.quadrant]) ∧
      (radarBlips res.radar).map (·.ring) =
        (if b1.ring = b2.ring then [some ⟨b1.ring, 0⟩, some ⟨b1.ring, 0⟩]
         else [some ⟨b1.ring, 0⟩, some ⟨b2.ring, 1⟩]) := by
  have ht : jsEndsWith "t" ".csv" = false := by decide
  by_cases hq : b1.quadrant = b2.quadrant <;> by_cases hr : b1.ring = b2.ring
  · refine ⟨⟨"t", ⟨[⟨jsCapitalize b1.quadrant,
        [⟨b1.name, some ⟨b1.ring, 0⟩, jsToLower b1.isNew == "true", b1.topic, b1.description⟩,
         ⟨b2.name, some ⟨b1.ring, 0⟩, jsToLower b2.isNew == "true", b2.topic, b2.description⟩]⟩],
        [], none⟩⟩, ?_, ?_, ?_, ?_⟩ <;>
      simp [plotRadar, buildRings, buildRingsAux, uniqFirst, uniqFirstAux, quadStep, quadInsert,
        mkBlipObj, alistLookup, altGuard, currGuard, radarBlips, ht, hq, hr]
  · refine ⟨⟨"t", ⟨[⟨jsCapitalize b1.quadrant,
        [⟨b1.name, some ⟨b1.ring, 0⟩, jsToLower b1.isNew == "true", b1.topic, b1.description⟩,
         ⟨b2.name, some ⟨b2.ring, 1⟩, jsToLower b2.isNew == "true", b2.topic, b2.description⟩]⟩],
        [], none⟩⟩, ?_, ?_, ?_, ?_⟩ <;>
      simp [plotRadar, buildRings, buildRingsAux, uniqFirst, uniqFirstAux, quadStep, quadInsert,
        mkBlipObj, alistLookup, altGuard, currGuard, radarBlips, ht, hq, hr, Ne.symm hr]
  · refine ⟨⟨"t", ⟨[⟨jsCapitalize b1.quadrant,
        [⟨b1.name, some ⟨b1.ring, 0⟩, jsToLower b1.isNew == "true", b1.topic, b1.description⟩]⟩,
        ⟨jsCapitalize b2.quadrant,
        [⟨b2.name, some ⟨b1.ring, 0⟩, jsToLower b2.isNew == "true", b2.topic, b2.description⟩]⟩],
        [], none⟩⟩, ?_, ?_, ?_, ?_⟩ <;>
      simp [plotRadar, buildRings, buildRingsAux, uniqFirst, uniqFirstAux, quadStep, quadInsert,
        mkBlipObj, alistLookup, altGuard, currGuard, radarBlips, ht, hq, hr]
  · refine ⟨⟨"t", ⟨[⟨jsCapitalize b1.quadrant,
        [⟨b1.name, some ⟨b1.ring, 0⟩, jsToLower b1.isNew == "true", b1.topic, b1.description⟩]⟩,
        ⟨jsCapitalize b2.quadrant,
        [⟨b2.name, some ⟨b2.ring, 1⟩, jsToLower b2.isNew == "true", b2.topic, b2.description⟩]⟩],
        [], none⟩⟩, ?_, ?_, ?_, ?_⟩ <;>
      simp [plotRadar, buildRings, buildRingsAux, uniqFirst, uniqFirstAux, quadStep, quadInsert,
        mkBlipObj, alistLookup, altGuard, currGuard, radarBlips, ht, hq, hr, Ne.symm hr]

/-- **C9**: the conditionals guarding the `alternativeRadars` and
`currentRadarName` assignments in `plotRadar` (`x !== undefined || true`)
are always true and have no semantic effect: the guarded bodies run on
every call, so both fields are required inputs — with `alternativeRadars`
undefined the unconditional `forEach` makes `plotRadar` throw instead of
skipping the assignment, and whenever the call returns a radar its
`alternatives` and `currentSheet` are taken from the two arguments. -/
theorem guard_conditionals_dead (title : String) (blips : List RawBlip)
    (currentRadarName : Option String) (alternativeRadars : Option (List String)) :
    altGuard alternativeRadars = true ∧
    currGuard currentRadarName = true ∧
    (∃ e, plotRadar title blips currentRadarName none = .error e) ∧
    (∀ alts res, plotRadar title blips currentRadarName (some alts) = .ok res →
      res.radar.alternatives = alts ∧ res.radar.currentSheet = currentRadarName) := by
  refine ⟨by simp [altGuard], by simp [currGuard], ?_, ?_⟩
  · cases hbr : buildRings (uniqFirst (blips.map (·.ring))) with
    | error e => exact ⟨e, by simp [plotRadar, hbr]⟩
    | ok rm =>
      exact ⟨.typeError "Cannot read properties of undefined (reading forEach)",
        by simp [plotRadar, hbr, altGuard]⟩
  · intro alts res h
    cases hbr : buildRings (uniqFirst (blips.map (·.ring))) with
    | error e => simp [plotRadar, hbr] at h
    | ok rm =>
      simp [plotRadar, hbr, altGuard, currGuard] at h
      exact ⟨by rw [← h], by rw [← h]⟩

/-- **C2**: the source-resolution state machine first attempts the
anonymous read (`sheet.validate`); a `SheetNotFoundError` terminates in
the not-found display (the error's own message) with no login ever
attempted, while any other validate error triggers authentication and the
protected read; a 403 status from the protected read yields the
unauthorized display and every other protected-read error yields the
generic error display. -/
theorem auth_flow_transitions (env : SheetEnv) (sheetName : Option String) :
    (∀ m, env.validateResult = some (.sheetNotFound m) →
      googleSheetBuild env sheetName =
        { loginAttempted := false, display := some (.errorBanner m) }) ∧
    (∀ e, env.validateResult = some e → (∀ m, e ≠ .sheetNotFound m) →
      (googleSheetBuild env sheetName).loginAttempted = true ∧
      (∀ dt values names, env.protectedResult = .inl (dt, values, names) →
        (googleSheetBuild env sheetName).display =
          (createBlipsForProtectedSheet dt values names sheetName).toOption) ∧
      (∀ status, env.protectedResult = .inr status →
        (googleSheetBuild env sheetName).display =
          some (if status == 403 then .unauthorized
                else .errorBanner OOPS_MESSAGE))) := by
  constructor
  · intro m hv
    rw [googleSheetBuild, hv]
    rfl
  · intro e hv hne
    have hb : googleSheetBuild env sheetName =
        (match env.protectedResult with
          | .inl (dt, values, names) =>
            { loginAttempted := true
              display := (createBlipsForProtectedSheet dt values names sheetName).toOption }
          | .inr status =>
            { loginAttempted := true
              display := some (if status == 403 then Display.unauthorized
                else plotErrorMessage (.httpError status)) } : FlowOutcome) := by
      rw [googleSheetBuild, hv]
      cases e with
      | sheetNotFound m => exact absurd rfl (hne m)
      | malformedData m => rfl
      | typeError m => rfl
      | httpError st => rfl
    refine ⟨?_, ?_, ?_⟩
    · rw [hb]
      cases env.protectedResult with
      | inl t => obtain ⟨dt, values, names⟩ := t; rfl
      | inr status => rfl
    · intro dt values names hp
      rw [hb, hp]
    · intro status hp
      rw [hb, hp]
      rfl

/-- Witness for C2 at a concrete environment: an access-denied anonymous
read followed by a 403 protected read ends unauthorized after a login
attempt. -/
theorem auth_flow_transitions_witness :
    ((⟨some (.typeError "denied"), ⟨"g", [], []⟩, .inr 403⟩ : SheetEnv).validateResult =
      some (.typeError "denied")) ∧
    (googleSheetBuild ⟨some (.typeError "denied"), ⟨"g", [], []⟩, .inr 403⟩ none).loginAttempted =
      true ∧
    (googleSheetBuild ⟨some (.typeError "denied"), ⟨"g", [], []⟩, .inr 403⟩ none).display =
      some .unauthorized := by
  have h := (auth_flow_transitions ⟨some (.typeError "denied"), ⟨"g", [], []⟩, .inr 403⟩ none).2
    (.typeError "denied") rfl (fun m hm => by cases hm)
  refine ⟨rfl, h.1, ?_⟩
  have h403 := h.2.2 403 rfl
  rw [h403]
  rfl

/-- Counterexample to **C3** as stated: the protected-sheet ingestion
callback has no catch-all.  With a valid header and five rows carrying
five distinct ring names, the ring-count `MalformedDataError` thrown
inside `plotRadar` escapes `createBlipsForProtectedSheet` uncaught
(modelled as a `.error` result) instead of becoming an error display. -/
theorem protected_callback_uncaught_cex :
    createBlipsForProtectedSheet "T"
      [["name", "ring", "quadrant", "isNew", "description"],
       ["a", "r1", "q", "", "d"], ["b", "r2", "q", "", "d"], ["c", "r3", "q", "", "d"],
       ["d", "r4", "q", "", "d"], ["e", "r5", "q", "", "d"]] ["tab"] none =
      .error (.malformedData TOO_MANY_RINGS) := by
  rfl

/-- **C3** (amended): the public-sheet ingestion callback and the CSV
ingestion callback wrap their validation/sanitization/build work in a
catch-all, so for every input they terminate in a display state and no
exception escapes them; the protected-sheet ingestion callback has no
such catch-all, and exceptions thrown during its work propagate
uncaught. -/
theorem catch_all_two_of_three (t : TabletopData) (sn : Option String)
    (url : String) (data : CsvData) :
    (∃ d, createBlips t sn = .ok d) ∧ (∃ d, csvCreateBlips url data = .ok d) :=
  ⟨⟨_, rfl⟩, ⟨_, rfl⟩⟩

/-- When the per-row validator accepts the header, the `forEach`
validation loop of `createBlipsForProtectedSheet` accepts the whole row
set. -/
theorem validateEach_ok {head : List String} (hv : contentValidatorCheck head = .ok ()) :
    ∀ l, validateEach head l = .ok () := by
  intro l
  induction l with
  | nil => rfl
  | cons x xs ih => simp [validateEach, hv, ih]

/-- Any successful `plotRadar` call passed through the ring-map match and
built its quadrants by the blip fold. -/
theorem plotRadar_ok_inv (title : String) (blips : List RawBlip)
    (currentRadarName : Option String) (alts : List String) (res : PlotResult) :
    plotRadar title blips currentRadarName (some alts) = .ok res →
    ∃ rm, buildRings (uniqFirst (blips.map (·.ring))) = .ok rm ∧
      res.radar.quadrants = (blips.foldl (quadStep rm) []).map (·.2) := by
  intro h
  cases hbr : buildRings (uniqFirst (blips.map (·.ring))) with
  | error e => simp [plotRadar, hbr] at h
  | ok rm =>
    simp [plotRadar, hbr, altGuard, currGuard] at h
    exact ⟨rm, rfl, by rw [← h]⟩

/-- **C10**: in the protected-sheet ingestion path the first fetched row
is the header: the validation loop validates it (the whole call equals the
plain pipeline on the remaining rows once the header passes validation),
it is removed before sanitization, every remaining row is re-paired
against it by positional index through `sanitizeForProtectedSheet`, it
never becomes a blip, and on success the radar's blip count is the number
of fetched rows minus one. -/
theorem protected_header_row (documentTitle : String) (header : List String)
    (rows : List (List String)) (sheetNames : List String) (sheetName : Option String)
    (hv : contentValidatorCheck header = .ok ()) :
    createBlipsForProtectedSheet documentTitle (header :: rows) sheetNames sheetName =
      Except.map Display.radar
        (plotRadar (documentTitle ++ " - " ++ jsShowOpt (defaultSheetName sheetName sheetNames))
          (rows.map (fun row => sanitizeForProtectedSheet row header))
          (defaultSheetName sheetName sheetNames) (some sheetNames)) ∧
    (∀ res, createBlipsForProtectedSheet documentTitle (header :: rows) sheetNames sheetName =
      .ok (.radar res) → radarBlipCount res.radar = (header :: rows).length - 1) := by
  have hmain : createBlipsForProtectedSheet documentTitle (header :: rows) sheetNames sheetName =
      Except.map Display.radar
        (plotRadar (documentTitle ++ " - " ++ jsShowOpt (defaultSheetName sheetName sheetNames))
          (rows.map (fun row => sanitizeForProtectedSheet row header))
          (defaultSheetName sheetName sheetNames) (some sheetNames)) := by
    rw [createBlipsForProtectedSheet]
    rw [List.headD_cons, validateEach_ok hv (header :: rows)]
    simp only [List.tail_cons]
    cases plotRadar (documentTitle ++ " - " ++ jsShowOpt (defaultSheetName sheetName sheetNames))
      (rows.map (fun row => sanitizeForProtectedSheet row header))
      (defaultSheetName sheetName sheetNames) (some sheetNames) with
    | error e => rfl
    | ok r => rfl
  refine ⟨hmain, ?_⟩
  intro res h
  rw [hmain] at h
  cases hp : plotRadar (documentTitle ++ " - " ++ jsShowOpt (defaultSheetName sheetName sheetNames))
      (rows.map (fun row => sanitizeForProtectedSheet row header))
      (defaultSheetName sheetName sheetNames) (some sheetNames) with
  | error e => rw [hp] at h; cases h
  | ok r =>
    rw [hp] at h
    have hr : r = res := by
      have h2 : (Except.ok (Display.radar r) : Except PipelineError Display) =
          .ok (.radar res) := h
      have h3 := Except.ok.inj h2
      injection h3
    subst hr
    rcases plotRadar_ok_inv _ _ _ _ _ hp with ⟨rm, -, hq⟩
    rw [radarBlipCount, hq]
    simp only [List.map_map]
    have hlen := quadLens_foldl rm (rows.map (fun row => sanitizeForProtectedSheet row header)) []
    simp only [List.map_nil, List.sum_nil, Nat.zero_add, List.length_map] at hlen
    calc (List.map ((fun q => q.blips.length) ∘ fun x => x.2)
            ((rows.map (fun row => sanitizeForProtectedSheet row header)).foldl
              (quadStep rm) [])).sum
        = rows.length := hlen
      _ = (header :: rows).length - 1 := by simp

/-- Witness for C10: a valid header row and one data row produce exactly
one blip. -/
theorem protected_header_row_witness :
    contentValidatorCheck ["name", "ring", "quadrant", "isNew", "description"] = .ok () ∧
    (createBlipsForProtectedSheet "T"
        (["name", "ring", "quadrant", "isNew", "description"] :: [["n", "r", "q", "true", "d"]])
        ["tab"] none =
      Except.map Display.radar
        (plotRadar ("T" ++ " - " ++ jsShowOpt (defaultSheetName none ["tab"]))
          ([["n", "r", "q", "true", "d"]].map (fun row =>
            sanitizeForProtectedSheet row ["name", "ring", "quadrant", "isNew", "description"]))
          (defaultSheetName none ["tab"]) (some ["tab"])) ∧
    (∀ res, createBlipsForProtectedSheet "T"
        (["name", "ring", "quadrant", "isNew", "description"] :: [["n", "r", "q", "true", "d"]])
        ["tab"] none =
      .ok (.radar res) →
      radarBlipCount res.radar =
        (["name", "ring", "quadrant", "isNew", "description"] :: [["n", "r", "q", "true", "d"]]).length - 1)) :=
  ⟨rfl, protected_header_row "T" ["name", "ring", "quadrant", "isNew", "description"]
    [["n", "r", "q", "true", "d"]] ["tab"] none rfl⟩

/-- Counterexample to **C5** as stated: a `sheetId` ending in `.csv` is
not always classified as a CSV file — with the query string
`?sheetId=data.csv` no domain token is extractable (there is no `://` in
the query), so the Locator falls through to the form prompt instead. -/
theorem locator_csv_needs_domain_cex :
    jsEndsWith "data.csv" ".csv" = true ∧
    googleSheetInputBuild "?sheetId=data.csv" "http://host/?sheetId=data.csv" =
      .ok .formPrompt := by
  exact ⟨rfl, rfl⟩

/-- **C5** (amended): with a domain token extractable from the query
string, a `sheetId` value ending in `.csv` is classified as a CSV file —
this check is performed before and takes precedence over the
provider-domain check (it applies whatever the domain token is); when
additionally no `csv` suffix matches, a domain token ending in
`google.com` together with a non-empty `sheetId` classifies as a Google
Sheet; with an empty query string the form prompt is shown. -/
theorem locator_classification (search href dn sid : String) :
    (DomainName (String.mk (search.toList.drop 1)) = some dn →
      alistLookup (locatorParams href) "sheetId" = some sid →
      jsEndsWith sid ".csv" = true →
      googleSheetInputBuild search href = .ok (.csv sid)) ∧
    (DomainName (String.mk (search.toList.drop 1)) = some dn →
      alistLookup (locatorParams href) "sheetId" = some sid →
      jsEndsWith sid "csv" = false → jsEndsWith dn "google.com" = true → sid ≠ "" →
      googleSheetInputBuild search href =
        .ok (.googleSheet sid (alistLookup (locatorParams href) "sheetName"))) ∧
    googleSheetInputBuild "" href = .ok .formPrompt := by
  refine ⟨?_, ?_, ?_⟩
  · intro hd hs hcsv
    have hc : jsEndsWith sid "csv" = true := by
      rw [jsEndsWith] at hcsv ⊢
      rw [List.isSuffixOf_iff_suffix] at hcsv ⊢
      exact List.IsSuffix.trans (show "csv".toList <:+ ".csv".toList from ⟨['.'], rfl⟩) hcsv
    rw [googleSheetInputBuild, hd, hs]
    simp [hc]
  · intro hd hs hnc hg hne
    rw [googleSheetInputBuild, hd, hs]
    simp [hnc, hg, jsTruthyStr, hne]
  · rw [googleSheetInputBuild]
    rfl

/-- **C6** (evaluating the code at the failing input): with a navigation
context whose query string carries a URL-valued parameter but no
`sheetId` parameter at all, the Locator does throw — the missing
`sheetId` is dereferenced (`queryParams.sheetId.endsWith('csv')`) and a
`TypeError` escapes instead of the form-prompt outcome the claim
requires. -/
theorem locator_missing_sheetId_throws :
    googleSheetInputBuild "?q=https://example.com/x" "http://host/?q=https://example.com/x" =
      .error (.typeError "Cannot read properties of undefined (reading endsWith)") := by
  rfl

end Byor
